import Mathlib

/-!
# ink-gateway: verified model of the voice-notification tool

A shallow embedding of the three notifier scripts
(`voice_assistant.py`, `claude_notify.py`, `claude_notify_direct.py`,
and the simple fallback in `my_awesome_project/claude_notify.py`):
the configuration record, message composition, the mode-gated dispatch
to the speech and system-notification channels, and the ordered
fallback chain of the entry-point notifier.  External OS calls
(speech synthesis, `terminal-notifier`, `osascript`, the filesystem)
are modelled by explicit outcome parameters; Python exceptions are
modelled with `Except`, a `try/except` handler being a `match` on it.
-/

namespace InkGateway

/-- Python `dict.get(key, default)` on a string-keyed, string-valued
dict, modelled as an association list (insertion order, first match). -/
def dictGetD (l : List (String × String)) (k d : String) : String :=
  match l.find? (fun p => p.1 == k) with
  | some p => p.2
  | none => d

/-- Python `key in dict`. -/
def dictHas (l : List (String × String)) (k : String) : Bool :=
  (l.find? (fun p => p.1 == k)).isSome

/-- The configuration record of `ClaudeVoiceAssistant` (the
`default_config` dict shape in `load_config`, lines 36-71).  The
`my_devices` key is absent from the defaults and read with
`.get('my_devices', [])`, so it is modelled as a plain list defaulting
to `[]`. -/
structure Config where
  assistant_name : String
  mode : String
  voice_rate : Nat
  voice_language : String
  emotional_prefix : Bool
  auto_detect_audio : Bool
  prefixes : List (String × String)
  hotkey_mode : Bool
  hotkey : String
  contextual_messages : List (String × String)
  my_devices : List String
deriving DecidableEq, Repr

/-- The literal `default_config` of `load_config` (voice_assistant.py,
lines 36-71). -/
def defaultConfig : Config where
  assistant_name := "小西"
  mode := "full"
  voice_rate := 180
  voice_language := "zh-TW"
  emotional_prefix := true
  auto_detect_audio := true
  prefixes :=
    [("urgent", "快來看看！"),
     ("gentle", "嗨，打擾一下，"),
     ("excited", "太棒了！"),
     ("worried", "糟糕，"),
     ("thinking", "嗯...讓我想想，")]
  hotkey_mode := true
  hotkey := "F5"
  contextual_messages :=
    [("blocked", "\x7bname\x7d被阻塞了，需要您的協助"),
     ("need_help", "\x7bname\x7d需要您的協助"),
     ("task_completed", "\x7bname\x7d已完成任務"),
     ("error", "\x7bname\x7d遇到錯誤，需要您檢查"),
     ("git_conflict", "發現 Git 衝突，需要您決定如何處理"),
     ("test_failed", "測試失敗了，需要您檢查錯誤訊息"),
     ("build_error", "建置過程出錯，可能需要調整設定"),
     ("dependency_issue", "套件相依性問題，需要您確認版本"),
     ("permission_denied", "權限不足，需要您授權"),
     ("file_not_found", "找不到必要的檔案，需要您提供路徑"),
     ("need_user_input", "需要您提供更多資訊才能繼續"),
     ("review_required", "程式碼變更完成，請您檢視"),
     ("deployment_ready", "部署準備就緒，需要您確認"),
     ("long_running", "任務執行時間較長，請耐心等待")]
  my_devices := []

/-- The `\x7bname\x7d` placeholder used by the contextual templates. -/
def namePlaceholder : String := "\x7bname\x7d"

/-- Replace every occurrence of `pat` in the character list (fuelled,
fuel at least the length of the input; left-to-right, non-overlapping,
as Python's substitution does). -/
def replaceOccAux (pat repl : List Char) : Nat → List Char → List Char
  | 0, l => l
  | _ + 1, [] => []
  | fuel + 1, c :: rest =>
    if pat.isPrefixOf (c :: rest) && !pat.isEmpty then
      repl ++ replaceOccAux pat repl fuel (rest.drop (pat.length - 1))
    else
      c :: replaceOccAux pat repl fuel rest

/-- Python `template.format(name=assistant_name)` for templates whose
only replacement field is `name` (the shape of every template in this
configuration): substitute the assistant name for each `\x7bname\x7d`. -/
def pyFormatName (template name : String) : String :=
  String.mk (replaceOccAux namePlaceholder.data name.data
    template.data.length template.data)

/-- `pat` occurs as a contiguous run somewhere in the list. -/
def containsAux (pat : List Char) : List Char → Bool
  | [] => pat.isEmpty
  | c :: rest => pat.isPrefixOf (c :: rest) || containsAux pat rest

/-- `sub` occurs as a contiguous substring of `s`. -/
def strContains (s sub : String) : Bool :=
  containsAux sub.data s.data

/-- Message selection in `notify` (voice_assistant.py, lines 133-141):
a falsy (absent or empty) literal message falls back to the contextual
template for `context`, itself defaulting to the `need_help` template.
(`contextual_messages['need_help']` indexes the dict directly; every
configuration derived from the defaults has that key, so the model's
empty-string default is never reached on the configurations used.) -/
def pickTemplate (cfg : Config) (message context : Option String) : String :=
  let fallback := dictGetD cfg.contextual_messages "need_help" ""
  let fromContext :=
    match context with
    | some c => if c == "" then fallback else dictGetD cfg.contextual_messages c fallback
    | none => fallback
  match message with
  | some m => if m == "" then fromContext else m
  | none => fromContext

/-- The emotional-prefix step of `notify` (voice_assistant.py, lines
147-151): when the `emotional_prefix` flag is set and an emotion is
given (truthy), a nonempty prefix found for it is prepended. -/
def notifyPrefixStep (cfg : Config) (emotion : Option String) (message : String) : String :=
  match emotion with
  | some e =>
    if Config.emotional_prefix cfg && !(e == "") then
      let p := dictGetD cfg.prefixes e ""
      if p == "" then message else p ++ message
    else message
  | none => message

/-- The full message composition of `notify` (voice_assistant.py,
lines 133-151): pick the template, substitute the assistant name,
prepend the emotional prefix. -/
def notifyMessage (cfg : Config) (message context emotion : Option String) : String :=
  notifyPrefixStep cfg emotion
    (pyFormatName (pickTemplate cfg message context) cfg.assistant_name)

/-- The prefix table of the simple fallback script
(`my_awesome_project/claude_notify.py`, lines 16-22). -/
def fallbackPrefixes : List (String × String) :=
  [("gentle", "嗨，打擾一下，"),
   ("urgent", "快來看看！"),
   ("excited", "太棒了！"),
   ("worried", "糟糕，"),
   ("thinking", "嗯...讓我想想，")]

/-- `speak` of the fallback script (lines 15-23):
`full_message = prefixes.get(emotion, "") + message`. -/
def speakFullMessage (message emotion : String) : String :=
  dictGetD fallbackPrefixes emotion "" ++ message

/-- Outcomes of the external commands `_send_system_notification`
shells out to; a `true` flag means the corresponding `subprocess.run`
raised (missing binary, or nonzero exit under `check=True`). -/
structure SysNotifyEnv where
  tnFails : Bool
  osaFails : Bool
deriving DecidableEq, Repr

/-- `_send_system_notification` on the non-interactive path used by
`notify` (voice_assistant.py, lines 462-546 with `interactive = False`,
`enable_response = False`): try `terminal-notifier`; on its failure
(caught) fall back to `osascript display notification`; a failure of
that is caught by the outer handler, which prints the diagnostics and
returns `"failed"` (a non-CalledProcessError exception returns
`"error"` the same caught way).  The method itself never raises. -/
def sendSystemNotification (env : SysNotifyEnv) : String :=
  if !env.tnFails then "sent"
  else if !env.osaFails then "sent"
  else "failed"

/-- What `notify` did: whether the echo block printed (and what), and
which of the two channels were invoked. -/
structure NotifyResult where
  echoed : Bool
  echoText : Option String
  sysAttempted : Bool
  sysStatus : Option String
  spoke : Bool
  speakFailLogged : Bool
deriving DecidableEq, Repr

/-- `notify` (voice_assistant.py, lines 102-170).  `darwin` is the
`platform.system() == 'Darwin'` test; `audioEnable` is true when the
audio-detector module imports and reports `enable` (the caught
`ImportError`, and a negative answer, both leave the mode unchanged);
`sayFails` is the outcome of the external speech command, whose
failure `speak` catches and logs.  Mode `off` returns before anything
is printed or dispatched. -/
def notifyRun (cfg : Config) (darwin audioEnable : Bool) (env : SysNotifyEnv)
    (sayFails : Bool) (message context emotion : Option String) : NotifyResult :=
  if cfg.mode == "off" then
    ⟨false, none, false, none, false, false⟩
  else
    let effectiveMode :=
      if cfg.mode == "silent" && Config.auto_detect_audio cfg && audioEnable
      then "full" else cfg.mode
    let msg := notifyMessage cfg message context emotion
    let sysStatus := if darwin then some (sendSystemNotification env) else none
    let spoke := effectiveMode == "full"
    ⟨true, some msg, darwin, sysStatus, spoke, spoke && sayFails⟩

/-- What `say` did: the echo block and the speech channel. -/
structure SayResult where
  echoed : Bool
  echoText : Option String
  spoke : Bool
deriving DecidableEq, Repr

/-- `say` (voice_assistant.py, lines 267-302): prefix step, then the
echo block unless `voice_only` is set or the mode is `off`, then
speech — under `silent` only when the audio detector enables it, under
`full` always, under `off` never. -/
def sayRun (cfg : Config) (voiceOnly audioEnable : Bool)
    (message : String) (emotion : Option String) : SayResult :=
  let msg := notifyPrefixStep cfg emotion message
  let echoed := !voiceOnly && !(cfg.mode == "off")
  let spoke :=
    if !(cfg.mode == "off") then
      if cfg.mode == "silent" && Config.auto_detect_audio cfg then audioEnable
      else cfg.mode == "full"
    else false
  ⟨echoed, if echoed then some msg else none, spoke⟩

/-- The §3 invariant: mode is one of the three literal values. -/
def modeOK (cfg : Config) : Bool :=
  cfg.mode == "full" || cfg.mode == "silent" || cfg.mode == "off"

/-- `set_mode` (voice_assistant.py, lines 223-230): only the three
literal modes are accepted; anything else is rejected with an error
print and no change. -/
def set_mode (cfg : Config) (m : String) : Config :=
  if m == "full" || m == "silent" || m == "off" then { cfg with mode := m }
  else cfg

/-- `update_config` (voice_assistant.py, lines 242-246) restricted to
the string-valued keys: `self.config[key] = value`, saved with no
validation whatsoever. -/
def update_config_str (cfg : Config) (key value : String) : Config :=
  if key == "mode" then { cfg with mode := value }
  else if key == "assistant_name" then { cfg with assistant_name := value }
  else if key == "voice_language" then { cfg with voice_language := value }
  else if key == "hotkey" then { cfg with hotkey := value }
  else cfg

/-- `add_device` (voice_assistant.py, lines 248-255): append the name
unless it is already present. -/
def add_device (cfg : Config) (d : String) : Config :=
  if cfg.my_devices.contains d then cfg
  else { cfg with my_devices := cfg.my_devices ++ [d] }

/-- `remove_device` (voice_assistant.py, lines 257-265): Python
`list.remove` drops the first occurrence when present; otherwise an
error print and no change. -/
def remove_device (cfg : Config) (d : String) : Config :=
  if cfg.my_devices.contains d then
    { cfg with my_devices := cfg.my_devices.erase d }
  else cfg

/-- A user configuration file as the merge loop of `load_config` sees
it: any subset of keys may be present; a present dict-valued key
carries entries merged into the default dict entry-wise
(`default_config[key].update(value)`), any other present key replaces
the default outright — nothing is validated. -/
structure UserConfig where
  assistant_name : Option String := none
  mode : Option String := none
  voice_rate : Option Nat := none
  voice_language : Option String := none
  emotional_prefix : Option Bool := none
  auto_detect_audio : Option Bool := none
  prefixes : List (String × String) := []
  hotkey_mode : Option Bool := none
  hotkey : Option String := none
  contextual_messages : List (String × String) := []
  my_devices : Option (List String) := none
deriving DecidableEq, Repr

/-- One `dict[k] = v` step of Python's `dict.update` on a string dict
kept as an association list. -/
def dictSet (base : List (String × String)) (k v : String) : List (String × String) :=
  if base.any (fun p => p.1 == k) then
    base.map (fun p => if p.1 == k then (k, v) else p)
  else base ++ [(k, v)]

/-- Python `base.update(upd)` on string dicts. -/
def dictUpdate (base upd : List (String × String)) : List (String × String) :=
  upd.foldl (fun b p => dictSet b p.1 p.2) base

/-- The merge loop of `load_config` (voice_assistant.py, lines 78-82):
dict values whose key exists in the defaults are merged entry-wise,
every other present key replaces the default. -/
def mergeConfig (d : Config) (u : UserConfig) : Config where
  assistant_name := u.assistant_name.getD d.assistant_name
  mode := u.mode.getD d.mode
  voice_rate := u.voice_rate.getD d.voice_rate
  voice_language := u.voice_language.getD d.voice_language
  emotional_prefix := (UserConfig.emotional_prefix u).getD (Config.emotional_prefix d)
  auto_detect_audio := (UserConfig.auto_detect_audio u).getD (Config.auto_detect_audio d)
  prefixes := dictUpdate d.prefixes u.prefixes
  hotkey_mode := u.hotkey_mode.getD d.hotkey_mode
  hotkey := u.hotkey.getD d.hotkey
  contextual_messages := dictUpdate d.contextual_messages u.contextual_messages
  my_devices := u.my_devices.getD d.my_devices

/-- What `load_config` produced: the configuration returned and the
file written, if any (the defaults are saved only when no configuration
file existed; `save_config` failures are caught and printed). -/
structure LoadResult where
  config : Config
  wrote : Option Config
deriving DecidableEq, Repr

/-- `load_config` (voice_assistant.py, lines 34-90): start from the
defaults; when the file is present and readable merge it in (a raised
read/parse error is caught and printed, keeping the defaults); when the
file is absent, save the defaults out and return them. -/
def load_config (present readOk : Bool) (user : UserConfig) : LoadResult :=
  if present then
    { config := if readOk then mergeConfig defaultConfig user else defaultConfig,
      wrote := none }
  else
    { config := defaultConfig, wrote := some defaultConfig }

/-- Outcome of one `subprocess.run` attempt of the fallback chain:
either the call raised (`TimeoutExpired` under `timeout=10`, missing
interpreter, …) or it completed with an exit status. -/
inductive AttemptResult where
  | exc
  | exit (code : Int)
deriving DecidableEq, Repr

/-- One `subprocess.run(cmd, capture_output=True, text=True,
timeout=10)`: a raised exception or a returncode. -/
def attemptRun : AttemptResult → Except String Int
  | .exc => .error "subprocess raised"
  | .exit c => .ok c

/-- An exit status indicating success. -/
def isSuccess : AttemptResult → Bool
  | .exit c => c == 0
  | .exc => false

/-- What the fallback loop did: how many targets were tried, whether
the success print was issued, whether the failure message was. -/
structure ChainOutcome where
  attempted : Nat
  delivered : Bool
  failurePrinted : Bool
deriving DecidableEq, Repr

/-- The fixed ordered target list of `claude_notify.py` (lines 24-33):
global helper, local sibling script, absolute home-directory path. -/
def fallbackTargets : List String :=
  ["~/Documents/claude-code-voice/claude_notify.py",
   "<script_dir>/claude_notify_direct.py",
   "<home>/Documents/claude-code-voice/claude_notify_direct.py"]

/-- The loop of `claude_notify.py main` (lines 35-49) over the target
outcomes: each attempt sits in `try/except Exception: continue`; a zero
exit status stops the loop with the success print and a `True` return;
exhaustion prints the failure message and returns `False`.  An uncaught
exception would surface as `.error`. -/
def mainChain : List AttemptResult → Except String ChainOutcome
  | [] => .ok ⟨0, false, true⟩
  | r :: rest =>
    match attemptRun r with
    | .ok c =>
      if c == 0 then .ok ⟨1, true, false⟩
      else
        match mainChain rest with
        | .ok o => .ok ⟨o.attempted + 1, o.delivered, o.failurePrinted⟩
        | .error e => .error e
    | .error _ =>
      match mainChain rest with
      | .ok o => .ok ⟨o.attempted + 1, o.delivered, o.failurePrinted⟩
      | .error e => .error e

/-- What §4.1 of the specification promises of the chain, written from
the spec's words for comparison with `mainChain`: stop right after the
first attempt whose exit status indicates success; otherwise try every
target, deliver nothing and print the failure message. -/
def chainSpec (rs : List AttemptResult) : ChainOutcome :=
  let i := rs.findIdx isSuccess
  if i < rs.length then ⟨i + 1, true, false⟩ else ⟨rs.length, false, true⟩

/-- Outcomes of the external interactions of
`claude_notify_direct.py main` and its helpers. -/
structure DirectEnv where
  hasConfigFile : Bool
  configReadOk : Bool
  voiceEnabledFlag : Bool
  notifyRaises : Bool
  tnFails : Bool
  osaFails : Bool
deriving DecidableEq, Repr

/-- `is_voice_enabled` (claude_notify_direct.py, lines 82-104): read
`.claude-voice-config.json` when present (a raised read/parse error is
caught, printed, and defaults to enabled); an absent file defaults to
enabled; never raises. -/
def is_voice_enabled (env : DirectEnv) : Bool :=
  if env.hasConfigFile then
    if env.configReadOk then env.voiceEnabledFlag else true
  else true

/-- `send_system_notification` of the direct notifier
(claude_notify_direct.py, lines 59-80): `terminal-notifier` with
`check=False`, its raised failure caught and followed by `osascript`,
whose raised failure is caught and printed; never raises.  Returns the
console print it makes. -/
def directSendSystemNotification (env : DirectEnv) : String :=
  if !env.tnFails then "✅ 系統通知已發送"
  else if !env.osaFails then "✅ 系統通知已發送 (AppleScript)"
  else "⚠️ 系統通知發送失敗"

/-- The `try` body of the direct notifier's `main`
(claude_notify_direct.py, lines 31-52): build the assistant, bump a
loaded `normal`/`silent` mode to `full` in memory, call `notify`,
restore the original mode, then the system notification.  `notify`
raising aborts the body (`.error`), leaving the restore unexecuted.
Yields the final in-memory configuration, the mode in effect during
the `notify` call, and the prints. -/
def directNotifyBlock (env : DirectEnv) (cfg : Config) :
    Except String (Config × String × List String) :=
  let original := cfg.mode
  let cfg1 := if original == "normal" || original == "silent" then
      { cfg with mode := "full" } else cfg
  if env.notifyRaises then .error "notify raised"
  else
    let cfg2 := if original == "normal" || original == "silent" then
        { cfg1 with mode := original } else cfg1
    .ok (cfg2, cfg1.mode,
      ["✅ 語音通知成功發送", directSendSystemNotification env])

/-- `main` of the direct notifier (claude_notify_direct.py, lines
13-57): no message argument prints usage and exits 1; a disabled voice
configuration returns (exit 0); otherwise the body runs under its
exception handler, which prints the failure and still attempts the
system notification.  Yields the exit status and the prints. -/
def directMain (argc : Nat) (env : DirectEnv) (cfg : Config) : Nat × List String :=
  if argc < 2 then (1, ["usage"])
  else if !is_voice_enabled env then (0, ["🔇 語音通知已停用，跳過通知"])
  else
    match directNotifyBlock env cfg with
    | .ok (_, _, logs) => (0, logs)
    | .error _ => (0, ["❌ 語音通知發送失敗", directSendSystemNotification env])

/-- C1 (counterexample): `git_conflict` is a key of the default
contextual template mapping, yet the message `notify` composes for it
with no literal message does not contain the configured assistant name
`小西` — the template has no name placeholder to substitute into. -/
theorem C1_counterexample :
    dictHas defaultConfig.contextual_messages "git_conflict" = true ∧
    strContains (notifyMessage defaultConfig none (some "git_conflict") none)
      defaultConfig.assistant_name = false := by
  decide

/-- C1 (amended): for every context key of the default template mapping
whose template contains the name placeholder, the message `notify`
composes for that key with no literal message contains the configured
assistant name. -/
theorem C1_contains_assistant_name (k t : String)
    (hmem : (k, t) ∈ defaultConfig.contextual_messages)
    (hph : strContains t namePlaceholder = true) :
    strContains (notifyMessage defaultConfig none (some k) none)
      defaultConfig.assistant_name = true := by
  have hall : defaultConfig.contextual_messages.all
      (fun p => !(strContains p.2 namePlaceholder) ||
        strContains (notifyMessage defaultConfig none (some p.1) none)
          defaultConfig.assistant_name) = true := by decide
  have h := List.all_eq_true.mp hall (k, t) hmem
  simp only [hph, Bool.not_true, Bool.false_or] at h
  exact h

/-- C1 witness: the `blocked` template carries the placeholder and its
composed message contains `小西`. -/
theorem C1_contains_assistant_name_witness :
    strContains (notifyMessage defaultConfig none (some "blocked") none)
      defaultConfig.assistant_name = true :=
  C1_contains_assistant_name "blocked" "\x7bname\x7d被阻塞了，需要您的協助"
    (by decide) (by decide)

/-- C2 (counterexample): with mode `off`, `notify` returns before its
echo block, so nothing is echoed for a message that the speaking mode
`full` echoes — the textual echo is not left unaffected. -/
theorem C2_counterexample :
    (notifyRun { defaultConfig with mode := "off" } true false ⟨false, false⟩
        false (some "請檢查") none none).echoed = false ∧
    (notifyRun defaultConfig true false ⟨false, false⟩
        false (some "請檢查") none none).echoed = true ∧
    (notifyRun defaultConfig true false ⟨false, false⟩
        false (some "請檢查") none none).echoText = some "請檢查" := by
  decide

/-- C2 (amended): mode `off` suppresses the speech channel and the
textual echo alike: for every message and every channel outcome,
`notify` returns before printing and `say` skips its echo block. -/
theorem C2_off_suppresses_speech_and_echo (cfg : Config)
    (darwin audioEnable : Bool) (env : SysNotifyEnv)
    (sayFails voiceOnly : Bool) (message context emotion : Option String)
    (m : String) (h : cfg.mode = "off") :
    (notifyRun cfg darwin audioEnable env sayFails message context emotion).spoke
        = false ∧
    (notifyRun cfg darwin audioEnable env sayFails message context emotion).echoed
        = false ∧
    (sayRun cfg voiceOnly audioEnable m emotion).spoke = false ∧
    (sayRun cfg voiceOnly audioEnable m emotion).echoed = false := by
  simp [notifyRun, sayRun, h]

/-- C2 witness: under mode `off` a concrete `notify`/`say` pair neither
speaks nor echoes. -/
theorem C2_off_suppresses_speech_and_echo_witness :
    (notifyRun { defaultConfig with mode := "off" } true true ⟨true, true⟩
        true (some "嗨") none none).spoke = false ∧
    (notifyRun { defaultConfig with mode := "off" } true true ⟨true, true⟩
        true (some "嗨") none none).echoed = false ∧
    (sayRun { defaultConfig with mode := "off" } false true "嗨" none).spoke
        = false ∧
    (sayRun { defaultConfig with mode := "off" } false true "嗨" none).echoed
        = false :=
  C2_off_suppresses_speech_and_echo { defaultConfig with mode := "off" }
    true true ⟨true, true⟩ true false (some "嗨") none none "嗨" rfl

/-- C4: prefix composition.  In the fallback script's `speak`, a tone
key present in the prefix mapping makes the composed message exactly
the prefix followed by the message, and an absent key leaves the
message unchanged; the prefix step of `notify` behaves the same on the
default configuration (whose `emotional_prefix` flag is set) for every
nonempty tone key. -/
theorem C4_prefix_composition (msg e p : String) :
    (fallbackPrefixes.find? (fun q => q.1 == e) = some (e, p) →
      speakFullMessage msg e = p ++ msg) ∧
    (fallbackPrefixes.find? (fun q => q.1 == e) = none →
      speakFullMessage msg e = msg) ∧
    (e ≠ "" → defaultConfig.prefixes.find? (fun q => q.1 == e) = some (e, p) →
      notifyPrefixStep defaultConfig (some e) msg = p ++ msg) ∧
    (defaultConfig.prefixes.find? (fun q => q.1 == e) = none →
      notifyPrefixStep defaultConfig (some e) msg = msg) := by
  have hep : Config.emotional_prefix defaultConfig = true := rfl
  refine ⟨?_, ?_, ?_, ?_⟩
  · intro h
    simp [speakFullMessage, dictGetD, h]
  · intro h
    simp [speakFullMessage, dictGetD, h]
  · intro he h
    have hb : (e == "") = false := beq_eq_false_iff_ne.mpr he
    by_cases hp : p = ""
    · subst hp
      simp [notifyPrefixStep, dictGetD, h, hb, hep]
    · have hpb : (p == "") = false := beq_eq_false_iff_ne.mpr hp
      simp [notifyPrefixStep, dictGetD, h, hb, hpb, hep]
  · intro h
    simp [notifyPrefixStep, dictGetD, h]

/-- C4 witness: a present key (`urgent`) prepends its exact prefix and
an absent key (`calm`) leaves the message unchanged, in both
implementations. -/
theorem C4_prefix_composition_witness :
    speakFullMessage "請檢查" "urgent" = "快來看看！請檢查" ∧
    speakFullMessage "請檢查" "calm" = "請檢查" ∧
    notifyPrefixStep defaultConfig (some "urgent") "請檢查" = "快來看看！請檢查" ∧
    notifyPrefixStep defaultConfig (some "calm") "請檢查" = "請檢查" := by
  obtain ⟨h1, -, h3, -⟩ := C4_prefix_composition "請檢查" "urgent" "快來看看！"
  obtain ⟨-, g2, -, g4⟩ := C4_prefix_composition "請檢查" "calm" "快來看看！"
  exact ⟨h1 (by decide), g2 (by decide), h3 (by decide) (by decide),
    g4 (by decide)⟩

/-- C5 (counterexample): `update_config` validates nothing — setting
the `mode` key to `banana` on the (valid) default configuration leaves
a configuration whose mode is none of the three literal values. -/
theorem C5_counterexample :
    modeOK defaultConfig = true ∧
    modeOK (update_config_str defaultConfig "mode" "banana") = false := by
  decide

/-- C5 (amended): the mode invariant holds of the defaults and is
preserved by `set_mode`, `add_device`, `remove_device`, and by the
load-time merge when the user file supplies no mode key; `update_config`
and a user file carrying a mode value perform no validation and can
break it. -/
theorem C5_mode_invariant :
    modeOK defaultConfig = true ∧
    (∀ cfg m, modeOK cfg = true → modeOK (set_mode cfg m) = true) ∧
    (∀ cfg d, modeOK cfg = true → modeOK (add_device cfg d) = true) ∧
    (∀ cfg d, modeOK cfg = true → modeOK (remove_device cfg d) = true) ∧
    (∀ u : UserConfig, u.mode = none →
      modeOK (load_config true true u).config = true) := by
  refine ⟨by decide, ?_, ?_, ?_, ?_⟩
  · intro cfg m h
    unfold set_mode
    split
    next hc => simpa [modeOK] using hc
    next => exact h
  · intro cfg d h
    unfold add_device
    split
    next => exact h
    next => simpa [modeOK] using h
  · intro cfg d h
    unfold remove_device
    split
    next => simpa [modeOK] using h
    next => exact h
  · intro u hu
    simp [load_config, mergeConfig, modeOK, hu, defaultConfig]

/-- C5 witness: the preserving operations applied to the defaults keep
the mode among the three literals. -/
theorem C5_mode_invariant_witness :
    modeOK (set_mode defaultConfig "banana") = true ∧
    modeOK (add_device defaultConfig "AirPods") = true ∧
    modeOK (remove_device defaultConfig "AirPods") = true ∧
    modeOK (load_config true true {}).config = true := by
  obtain ⟨h0, h1, h2, h3, h4⟩ := C5_mode_invariant
  exact ⟨h1 defaultConfig "banana" h0, h2 defaultConfig "AirPods" h0,
    h3 defaultConfig "AirPods" h0, h4 {} rfl⟩

/-- C8: when no configuration file exists, `load_config` returns the
full defaults — mode `full`, every feature flag enabled — and writes
exactly those defaults out. -/
theorem C8_absent_file_defaults (readOk : Bool) (u : UserConfig) :
    load_config false readOk u = ⟨defaultConfig, some defaultConfig⟩ ∧
    defaultConfig.mode = "full" ∧
    Config.emotional_prefix defaultConfig = true ∧
    Config.auto_detect_audio defaultConfig = true ∧
    defaultConfig.hotkey_mode = true :=
  ⟨rfl, rfl, rfl, rfl, rfl⟩

/-- C9 (counterexample): on a configuration whose `my_devices` list
already holds the name twice, `add_device` is a no-op, so two calls
leave two occurrences — not exactly one. -/
theorem C9_counterexample :
    ((add_device (add_device
        { defaultConfig with my_devices := ["AirPods", "AirPods"] } "AirPods")
        "AirPods").my_devices.count "AirPods") = 2 := by
  decide

/-- C9 (amended): the second of two `add_device` calls never modifies
the configuration, the name is present after the first call, and when
the name did not occur initially the two calls leave exactly one
occurrence. -/
theorem C9_add_device_idempotent (cfg : Config) (d : String) :
    add_device (add_device cfg d) d = add_device cfg d ∧
    (add_device cfg d).my_devices.contains d = true ∧
    (cfg.my_devices.contains d = false →
      (add_device cfg d).my_devices.count d = 1) := by
  by_cases hm : d ∈ cfg.my_devices
  · refine ⟨by simp [add_device, hm], by simp [add_device, hm], ?_⟩
    intro h
    have hc : cfg.my_devices.contains d = true := by simpa using hm
    rw [hc] at h
    cases h
  · refine ⟨by simp [add_device, hm], by simp [add_device, hm], ?_⟩
    intro _
    have h0 : cfg.my_devices.count d = 0 := List.count_eq_zero.mpr hm
    simp [add_device, hm, List.count_append, h0]

/-- C9 witness: adding a fresh device twice to the defaults leaves one
occurrence and the second call changes nothing. -/
theorem C9_add_device_idempotent_witness :
    add_device (add_device defaultConfig "AirPods") "AirPods"
        = add_device defaultConfig "AirPods" ∧
    (add_device defaultConfig "AirPods").my_devices.contains "AirPods" = true ∧
    (add_device defaultConfig "AirPods").my_devices.count "AirPods" = 1 := by
  obtain ⟨h1, h2, h3⟩ := C9_add_device_idempotent defaultConfig "AirPods"
  exact ⟨h1, h2, h3 (by decide)⟩

/-- Helper: the fallback loop refines its §4.1 account on every
outcome list — it never lets an exception escape, and it stops right
after the first success. -/
theorem mainChain_eq_chainSpec (rs : List AttemptResult) :
    mainChain rs = .ok (chainSpec rs) := by
  induction rs with
  | nil => rfl
  | cons r rest ih =>
    cases r with
    | exc =>
      simp only [mainChain, attemptRun]
      rw [ih]
      simp only [chainSpec, List.findIdx_cons, isSuccess, cond_false,
        List.length_cons]
      by_cases hlt : rest.findIdx isSuccess < rest.length
      · simp [hlt, Nat.succ_lt_succ hlt]
      · have hlt2 : ¬ rest.findIdx isSuccess + 1 < rest.length + 1 := by
          omega
        simp [hlt, hlt2]
    | exit c =>
      by_cases hc : (c == 0) = true
      · simp only [mainChain, attemptRun, hc, if_true]
        simp [chainSpec, List.findIdx_cons, isSuccess, hc]
      · have hcf : (c == 0) = false := by simpa using hc
        simp only [mainChain, attemptRun, hcf, Bool.false_eq_true, if_false]
        rw [ih]
        simp only [chainSpec, List.findIdx_cons, isSuccess, hcf, cond_false,
          List.length_cons]
        by_cases hlt : rest.findIdx isSuccess < rest.length
        · simp [hlt, Nat.succ_lt_succ hlt]
        · have hlt2 : ¬ rest.findIdx isSuccess + 1 < rest.length + 1 := by
            omega
          simp [hlt, hlt2]

/-- C3: the fallback notifier has the three fixed targets in order, and
on every list of attempt outcomes the loop behaves exactly as §4.1
says: the first attempt whose exit status indicates success ends the
loop (the remaining targets are not attempted), exhaustion prints the
failure message and delivers nothing, and no exception escapes — the
result is always `.ok`. -/
theorem C3_fallback_chain :
    fallbackTargets.length = 3 ∧
    ∀ rs : List AttemptResult, mainChain rs = .ok (chainSpec rs) :=
  ⟨rfl, mainChain_eq_chainSpec⟩

/-- C6: with a message argument supplied, the direct notifier finishes
at exit status zero for every combination of external-call failures, a
`notify` failure surfacing only as a console print; and the fallback
chain of the entry-point notifier never lets an exception escape. -/
theorem C6_failures_degrade_to_prints (argc : Nat) (env : DirectEnv)
    (cfg : Config) (rs : List AttemptResult) (h : 2 ≤ argc) :
    (directMain argc env cfg).1 = 0 ∧
    (env.notifyRaises = true → is_voice_enabled env = true →
      "❌ 語音通知發送失敗" ∈ (directMain argc env cfg).2) ∧
    (∃ o, mainChain rs = Except.ok o) := by
  have hlt : ¬ argc < 2 := by omega
  refine ⟨?_, ?_, ⟨chainSpec rs, mainChain_eq_chainSpec rs⟩⟩
  · by_cases he : is_voice_enabled env
    · by_cases hr : env.notifyRaises
      · simp [directMain, hlt, he, directNotifyBlock, hr]
      · simp [directMain, hlt, he, directNotifyBlock, hr]
    · simp [directMain, hlt, he]
  · intro hr he
    simp [directMain, hlt, he, directNotifyBlock, hr]

/-- C6 witness: every external call failing at once still exits zero
with the failure printed, and the all-failing chain returns normally. -/
theorem C6_failures_degrade_to_prints_witness :
    (directMain 2 ⟨true, true, true, true, true, true⟩ defaultConfig).1 = 0 ∧
    "❌ 語音通知發送失敗"
      ∈ (directMain 2 ⟨true, true, true, true, true, true⟩ defaultConfig).2 ∧
    (∃ o, mainChain [.exc, .exc, .exc] = Except.ok o) := by
  obtain ⟨h1, h2, h3⟩ := C6_failures_degrade_to_prints 2
    ⟨true, true, true, true, true, true⟩ defaultConfig [.exc, .exc, .exc]
    (by omega)
  exact ⟨h1, h2 rfl rfl, h3⟩

/-- C7: on a dispatch that reaches both channels (macOS, mode `full`),
the system-notification channel and the speech channel are both
invoked whatever the external outcomes: a complete system-notification
failure is caught inside `_send_system_notification` (status `failed`)
with speech still attempted, and a speech failure is caught inside
`speak` and logged with the system notification already attempted. -/
theorem C7_channels_independent (cfg : Config) (audioEnable : Bool)
    (env : SysNotifyEnv) (sayFails : Bool)
    (message context emotion : Option String) (h : cfg.mode = "full") :
    (notifyRun cfg true audioEnable env sayFails message context
      emotion).sysAttempted = true ∧
    (notifyRun cfg true audioEnable env sayFails message context
      emotion).spoke = true ∧
    (env.tnFails = true → env.osaFails = true →
      (notifyRun cfg true audioEnable env sayFails message context
        emotion).sysStatus = some "failed") ∧
    (sayFails = true →
      (notifyRun cfg true audioEnable env sayFails message context
        emotion).speakFailLogged = true) := by
  refine ⟨?_, ?_, ?_, ?_⟩
  · simp [notifyRun, h]
  · simp [notifyRun, h]
  · intro h1 h2
    simp [notifyRun, sendSystemNotification, h, h1, h2]
  · intro h1
    simp [notifyRun, h, h1]

/-- C7 witness: with both notification commands and the speech command
failing, both channels are still invoked, the notification failure is
caught as `failed`, and the speech failure is logged. -/
theorem C7_channels_independent_witness :
    (notifyRun defaultConfig true false ⟨true, true⟩ true (some "嗨")
      none none).sysAttempted = true ∧
    (notifyRun defaultConfig true false ⟨true, true⟩ true (some "嗨")
      none none).spoke = true ∧
    (notifyRun defaultConfig true false ⟨true, true⟩ true (some "嗨")
      none none).sysStatus = some "failed" ∧
    (notifyRun defaultConfig true false ⟨true, true⟩ true (some "嗨")
      none none).speakFailLogged = true := by
  obtain ⟨h1, h2, h3, h4⟩ := C7_channels_independent defaultConfig false
    ⟨true, true⟩ true (some "嗨") none none rfl
  exact ⟨h1, h2, h3 rfl rfl, h4 rfl⟩

/-- C10: on the success path of the direct notifier (`notify` does not
raise) the mode juggling is invisible afterwards: the in-memory
configuration after the body equals the one before; a loaded mode of
`normal` or `silent` is `full` for the duration of the `notify` call,
and `off` is passed through unchanged. -/
theorem C10_mode_restored (env : DirectEnv) (cfg : Config)
    (h : env.notifyRaises = false) :
    ∃ during logs, directNotifyBlock env cfg = .ok (cfg, during, logs) ∧
      ((cfg.mode = "normal" ∨ cfg.mode = "silent") → during = "full") ∧
      (cfg.mode = "off" → during = "off") := by
  by_cases hb : (cfg.mode == "normal" || cfg.mode == "silent") = true
  · refine ⟨"full", ["✅ 語音通知成功發送", directSendSystemNotification env],
      ?_, fun _ => rfl, ?_⟩
    · simp [directNotifyBlock, h, hb]
    · intro hoff
      rw [hoff] at hb
      exact absurd hb (by decide)
  · refine ⟨cfg.mode, ["✅ 語音通知成功發送", directSendSystemNotification env],
      ?_, ?_, fun hoff => hoff⟩
    · simp [directNotifyBlock, h, hb]
    · intro hns
      rcases hns with hn | hs
      · rw [hn] at hb
        exact absurd (by decide) hb
      · rw [hs] at hb
        exact absurd (by decide) hb

/-- C10 witness: with a loaded mode of `silent` and `notify`
succeeding, the body finishes with the configuration it started from
and speaks under mode `full`. -/
theorem C10_mode_restored_witness :
    ∃ during logs,
      directNotifyBlock ⟨true, true, true, false, true, true⟩
          { defaultConfig with mode := "silent" }
        = .ok ({ defaultConfig with mode := "silent" }, during, logs) ∧
      during = "full" := by
  obtain ⟨during, logs, heq, h2, -⟩ :=
    C10_mode_restored ⟨true, true, true, false, true, true⟩
      { defaultConfig with mode := "silent" } rfl
  exact ⟨during, logs, heq, h2 (Or.inr rfl)⟩

end InkGateway
